import Mathlib

/-!
Verification of the consistency-checker core of this repository: the
violation/result data model, the waiver matching engine
(src/devops/consistency_checker/waiver_manager.py) and the execution
orchestrator (src/devops/consistency_checker/checker.py).

Modelling conventions:
* Python strings are Lean `String`s; Python `x in y` on strings is `py_in`,
  `str.strip()` is `pyStrip` (ASCII whitespace), truthiness of an optional
  string (`None` and `""` are falsy) is `strTruthy`.
* Calendar dates and datetimes are abstract day/instant ordinals (`Nat`):
  `date.today()` becomes an explicit `today` argument and `datetime.now()`
  an explicit `now` argument.  Textual date parsing (`_parse_date`) is out
  of scope; waiver-file items carry already-decoded ordinals.
* `fnmatch.fnmatch` and `re.search` are executable Lean models of the
  library behaviour on the pattern subset the repository uses
  (`*`, `?`, `[...]` globs; regexes made of literals, escapes, `.`,
  character classes, anchors and the `*`/`+`/`?` quantifiers).  Both use a
  structural fuel bounded by the input sizes so that concrete instances
  evaluate by kernel reduction.
* The Python class body of `WaiverManager` defines `_parse_line_waiver`,
  `_parse_pattern_waiver` and `_parse_rule_waiver` twice; the later
  definitions shadow the earlier ones, so the later variants are the ones
  embedded here.
-/

/-- Python truthiness of an optional string: `None` and `""` are falsy. -/
def strTruthy : Option String → Bool
  | none => false
  | some s => decide (s ≠ "")

/-- Python `needle in hay` for strings: substring containment. -/
def py_in (needle hay : String) : Bool :=
  hay.data.tails.any fun t => needle.data.isPrefixOf t

/-- Python `str.strip()`: remove leading and trailing whitespace. -/
def pyStrip (s : String) : String := s.trim

/-- Python `a or b` over two optional strings (`None`/`""` falsy),
as used for `item.get('scope') or item.get('file_pattern')`. -/
def py_or_str (a b : Option String) : Option String :=
  match a with
  | some s => if s = "" then b else some s
  | none => b

/-- Python `str.isdigit()` restricted to ASCII digits. -/
def isDigitStr (s : String) : Bool :=
  decide (s ≠ "") && s.data.all Char.isDigit

/-- One item of a character class: a single character or a range. -/
inductive ClsItem where
  | ch (c : Char)
  | range (lo hi : Char)
deriving DecidableEq

/-- Parse the body of a character class up to the closing bracket,
returning the items and the rest of the pattern.  The fuel is bounded by
the pattern length. -/
def parseCls : Nat → List Char → List ClsItem × List Char
  | 0, rest => ([], rest)
  | _ + 1, [] => ([], [])
  | _ + 1, ']' :: rest => ([], rest)
  | f + 1, a :: rest =>
    match rest with
    | '-' :: b :: rest2 =>
      if b = ']' then
        let r := parseCls f ('-' :: b :: rest2)
        (ClsItem.ch a :: r.1, r.2)
      else
        let r := parseCls f rest2
        (ClsItem.range a b :: r.1, r.2)
    | _ =>
      let r := parseCls f rest
      (ClsItem.ch a :: r.1, r.2)

/-- Does a character satisfy a (possibly negated) character class? -/
def clsMatches (neg : Bool) (items : List ClsItem) (c : Char) : Bool :=
  let m := items.any fun it =>
    match it with
    | ClsItem.ch d => c = d
    | ClsItem.range lo hi => decide (lo ≤ c) && decide (c ≤ hi)
  if neg then !m else m

/-- Core of `fnmatch.fnmatch`: glob matching with `*`, `?` and `[...]`
classes (`[!...]` negation).  `*` matches any character run, including
path separators, exactly as in Python's `fnmatch`.  Fuel decreases at
every step and is bounded by pattern length + string length. -/
def globMatch : Nat → List Char → List Char → Bool
  | 0, p, s => p.isEmpty && s.isEmpty
  | _ + 1, [], s => s.isEmpty
  | f + 1, '*' :: ps, s =>
    globMatch f ps s ||
      (match s with
       | [] => false
       | _ :: s2 => globMatch f ('*' :: ps) s2)
  | f + 1, '?' :: ps, s =>
    (match s with
     | _ :: s2 => globMatch f ps s2
     | [] => false)
  | f + 1, '[' :: ps, s =>
    (match s with
     | [] => false
     | c :: s2 =>
       let nb : Bool × List Char :=
         match ps with
         | '!' :: r => (true, r)
         | r => (false, r)
       let pr := parseCls (nb.2.length + 1) nb.2
       clsMatches nb.1 pr.1 c && globMatch f pr.2 s2)
  | f + 1, c :: ps, s =>
    (match s with
     | d :: s2 => decide (c = d) && globMatch f ps s2
     | [] => false)

/-- Model of `fnmatch.fnmatch(name, pattern)` (POSIX case-sensitive). -/
def fnmatch (name pat : String) : Bool :=
  globMatch (pat.data.length + name.data.length + 1) pat.data name.data

/-- A regex atom of the modelled `re` subset. -/
inductive RAtom where
  | dot
  | lit (c : Char)
  | cls (neg : Bool) (items : List ClsItem)
deriving DecidableEq

/-- A quantifier attached to a regex atom. -/
inductive Quant where
  | one
  | star
  | plus
  | opt
deriving DecidableEq

/-- Parse a regex of the modelled subset into quantified atoms plus an
end-anchor flag (a final bare dollar sign).  Fuel is bounded by the
pattern length. -/
def parseRegex : Nat → List Char → List (RAtom × Quant) × Bool
  | 0, _ => ([], false)
  | _ + 1, [] => ([], false)
  | f + 1, c :: rest =>
    if c = '$' ∧ rest = [] then ([], true)
    else
      let ar : RAtom × List Char :=
        if c = '\\' then
          match rest with
          | d :: r2 => (RAtom.lit d, r2)
          | [] => (RAtom.lit '\\', [])
        else if c = '.' then (RAtom.dot, rest)
        else if c = '[' then
          match rest with
          | '^' :: r2 =>
            let pr := parseCls (r2.length + 1) r2
            (RAtom.cls true pr.1, pr.2)
          | r2 =>
            let pr := parseCls (r2.length + 1) r2
            (RAtom.cls false pr.1, pr.2)
        else (RAtom.lit c, rest)
      match ar.2 with
      | '*' :: r3 =>
        let pr := parseRegex f r3
        ((ar.1, Quant.star) :: pr.1, pr.2)
      | '+' :: r3 =>
        let pr := parseRegex f r3
        ((ar.1, Quant.plus) :: pr.1, pr.2)
      | '?' :: r3 =>
        let pr := parseRegex f r3
        ((ar.1, Quant.opt) :: pr.1, pr.2)
      | r3 =>
        let pr := parseRegex f r3
        ((ar.1, Quant.one) :: pr.1, pr.2)

/-- Does a regex atom match one character? -/
def atomMatches (a : RAtom) (c : Char) : Bool :=
  match a with
  | RAtom.dot => true
  | RAtom.lit d => c = d
  | RAtom.cls neg items => clsMatches neg items c

/-- Match a token list against a prefix of the string (the whole string
when the end anchor is set).  Fuel is bounded by tokens + string length. -/
def matchTokens : Nat → List (RAtom × Quant) → Bool → List Char → Bool
  | 0, _, _, _ => false
  | _ + 1, [], anchorEnd, s => if anchorEnd then s.isEmpty else true
  | f + 1, (a, q) :: ts, e, s =>
    match q with
    | Quant.one =>
      (match s with
       | c :: s2 => atomMatches a c && matchTokens f ts e s2
       | [] => false)
    | Quant.opt =>
      matchTokens f ts e s ||
        (match s with
         | c :: s2 => atomMatches a c && matchTokens f ts e s2
         | [] => false)
    | Quant.star =>
      matchTokens f ts e s ||
        (match s with
         | c :: s2 => atomMatches a c && matchTokens f ((a, Quant.star) :: ts) e s2
         | [] => false)
    | Quant.plus =>
      (match s with
       | c :: s2 => atomMatches a c && matchTokens f ((a, Quant.star) :: ts) e s2
       | [] => false)

/-- Try to match the token list starting at every suffix of the string. -/
def searchPositions (ts : List (RAtom × Quant)) (e : Bool) : List Char → Bool
  | [] => matchTokens (ts.length + 1) ts e []
  | c :: s2 =>
    matchTokens (ts.length + (c :: s2).length + 1) ts e (c :: s2) ||
      searchPositions ts e s2

/-- Model of `re.search(pattern, string)` returning whether a match
exists, for the modelled regex subset (a leading caret anchors the match
at the start). -/
def re_search (p s : String) : Bool :=
  match p.data with
  | '^' :: rest =>
    let pr := parseRegex (rest.length + 1) rest
    matchTokens (pr.1.length + s.data.length + 1) pr.1 pr.2 s.data
  | pc =>
    let pr := parseRegex (pc.length + 1) pc
    searchPositions pr.1 pr.2 s.data

/-- Severity levels of `base_rule.Severity`. -/
inductive Severity where
  | info
  | warning
  | error
  | critical
deriving DecidableEq

/-- The fields of `base_rule.Violation` read by the modelled code.
The context/tagging fields (`context_lines_*`, `tags`, `references`,
`custom_data`, `suggested_fix`) are never read by the waiver engine or
the orchestrator and are omitted. -/
structure Violation where
  id : String := ""
  rule_name : String := ""
  rule_category : String := ""
  file_path : String := ""
  line_number : Nat := 0
  column : Nat := 0
  end_line : Nat := 0
  end_column : Nat := 0
  message : String := ""
  description : String := ""
  severity : Severity := Severity.error
  code_snippet : String := ""
deriving DecidableEq

/-- The five waiver types of `waiver_manager.WaiverType`. -/
inductive WaiverType where
  | line_specific
  | pattern_based
  | rule_based
  | bulk
  | temporary
deriving DecidableEq

/-- `waiver_manager.WaiverRule` with dates/instants as ordinals and
`parameter_overrides` as an association list. -/
structure WaiverRule where
  id : String := ""
  type : WaiverType := WaiverType.line_specific
  pattern : String := ""
  rule_names : List String := []
  file_pattern : Option String := none
  line_number : Option Nat := none
  column : Option Nat := none
  reason : String := ""
  approved_by : String := ""
  created_date : Option Nat := none
  expires : Option Nat := none
  issue_reference : Option String := none
  code_content : Option String := none
  message_pattern : Option String := none
  severity_filter : List Severity := []
  usage_count : Nat := 0
  last_used : Option Nat := none
  parameter_overrides : List (String × String) := []
  active : Bool := true
deriving DecidableEq

/-- `WaiverRule.is_expired`: a waiver with no expiry never expires; a
date object is always truthy in Python, so only `None` skips the check. -/
def WaiverRule.is_expired (w : WaiverRule) (today : Nat) : Bool :=
  match w.expires with
  | none => false
  | some e => decide (e < today)

/-- `WaiverRule._matches_line_specific`: a chain of early-reject guards
mirroring the Python statement order. -/
def WaiverRule.matches_line_specific (w : WaiverRule) (v : Violation)
    (file_path : String) : Bool :=
  if strTruthy w.file_pattern && !fnmatch file_path (w.file_pattern.getD "") then
    false
  else if (match w.line_number with
           | some ln => decide (v.line_number ≠ ln)
           | none => false) then
    false
  else if (match w.column with
           | some c => decide (v.column ≠ c)
           | none => false) then
    false
  else if strTruthy w.code_content &&
      decide (pyStrip (w.code_content.getD "") ≠ pyStrip v.code_snippet) then
    false
  else if strTruthy w.message_pattern then
    if !re_search (w.message_pattern.getD "") v.message then false else true
  else if decide (w.pattern ≠ "") && !py_in w.pattern v.message then
    false
  else
    true

/-- `WaiverRule._matches_pattern_based`: on a non-matching non-empty
`pattern` the code falls through to the `message_pattern` regex check. -/
def WaiverRule.matches_pattern_based (w : WaiverRule) (v : Violation)
    (file_path : String) : Bool :=
  if strTruthy w.file_pattern && !fnmatch file_path (w.file_pattern.getD "") then
    false
  else if decide (w.pattern ≠ "") &&
      (py_in w.pattern v.message || py_in w.pattern v.code_snippet) then
    true
  else if strTruthy w.message_pattern then
    re_search (w.message_pattern.getD "") v.message
  else
    false

/-- `WaiverRule._matches_rule_based`: membership in `rule_names` is
re-checked here, so an empty `rule_names` list never matches. -/
def WaiverRule.matches_rule_based (w : WaiverRule) (v : Violation)
    (file_path : String) : Bool :=
  if v.rule_name ∉ w.rule_names then false
  else if strTruthy w.file_pattern then fnmatch file_path (w.file_pattern.getD "")
  else true

/-- `WaiverRule._matches_bulk`: requires a truthy file pattern that
matches, then an empty rule list or membership. -/
def WaiverRule.matches_bulk (w : WaiverRule) (v : Violation)
    (file_path : String) : Bool :=
  if strTruthy w.file_pattern && fnmatch file_path (w.file_pattern.getD "") then
    if decide (w.rule_names = []) || decide (v.rule_name ∈ w.rule_names) then true
    else false
  else false

/-- `WaiverRule._matches_temporary` delegates to the pattern-based match. -/
def WaiverRule.matches_temporary (w : WaiverRule) (v : Violation)
    (file_path : String) : Bool :=
  w.matches_pattern_based v file_path

/-- `WaiverRule.matches_violation`: active/expiry gate, rule-name filter,
severity filter, then the type-specific predicate. -/
def WaiverRule.matches_violation (w : WaiverRule) (v : Violation)
    (file_path : String) (today : Nat) : Bool :=
  if !w.active || w.is_expired today then false
  else if decide (w.rule_names ≠ []) && decide (v.rule_name ∉ w.rule_names) then
    false
  else if decide (w.severity_filter ≠ []) &&
      decide (v.severity ∉ w.severity_filter) then
    false
  else
    match w.type with
    | WaiverType.line_specific => w.matches_line_specific v file_path
    | WaiverType.pattern_based => w.matches_pattern_based v file_path
    | WaiverType.rule_based => w.matches_rule_based v file_path
    | WaiverType.bulk => w.matches_bulk v file_path
    | WaiverType.temporary => w.matches_temporary v file_path

/-- `WaiverRule.record_usage`: bump the usage count and stamp the time. -/
def WaiverRule.record_usage (w : WaiverRule) (now : Nat) : WaiverRule :=
  { w with usage_count := w.usage_count + 1, last_used := some now }

/-- The inner loop of `WaiverManager.apply_waivers` for one violation:
walk the waiver list in order; on the first match record usage and stop,
leaving every other waiver untouched.  Returns the updated waiver list
and whether the violation was waived. -/
def apply_waivers_inner (ws : List WaiverRule) (v : Violation)
    (file_path : String) (today now : Nat) : List WaiverRule × Bool :=
  match ws with
  | [] => ([], false)
  | w :: rest =>
    if w.matches_violation v file_path today then
      (w.record_usage now :: rest, true)
    else
      let r := apply_waivers_inner rest v file_path today now
      (w :: r.1, r.2)

/-- `WaiverManager.apply_waivers`: partition the violations into
remaining and waived, threading the mutable waiver state (usage counts)
through the run.  Returns (waivers, remaining, waived). -/
def apply_waivers (ws : List WaiverRule) (vs : List Violation)
    (file_path : String) (today now : Nat) :
    List WaiverRule × List Violation × List Violation :=
  match vs with
  | [] => (ws, [], [])
  | v :: rest =>
    let p := apply_waivers_inner ws v file_path today now
    let q := apply_waivers p.1 rest file_path today now
    if p.2 then (q.1, q.2.1, v :: q.2.2) else (q.1, v :: q.2.1, q.2.2)

/-- Python `s.split(sep, n)` with at most `n` splits, over characters. -/
def py_split_limit (sep : Char) : Nat → List Char → List (List Char)
  | _, [] => [[]]
  | 0, s => [s]
  | n + 1, c :: rest =>
    if c = sep then [] :: py_split_limit sep n rest
    else
      match py_split_limit sep (n + 1) rest with
      | [] => [[c]]
      | h :: t => (c :: h) :: t

/-- Python `violation_line.split(':', 3)` on strings. -/
def py_split_colon3 (s : String) : List String :=
  (py_split_limit ':' 3 s.data).map fun l => String.mk l

/-- One YAML mapping entry of a waiver file, typed by the keys the live
parsers read.  Unset keys are `none`; a YAML `rules: "*"` shorthand is
the `rules_star` flag.  Dates are already-decoded ordinals (see header). -/
structure Item where
  id : Option String := none
  rules : Option (List String) := none
  rules_star : Bool := false
  rule : Option String := none
  scope : Option String := none
  pattern : Option String := none
  file_pattern : Option String := none
  line_number : Option Nat := none
  column : Option Nat := none
  violation_line : Option String := none
  reason : Option String := none
  approved_by : Option String := none
  created_date : Option Nat := none
  expires : Option Nat := none
  issue_reference : Option String := none
  code_content : Option String := none
  message_pattern : Option String := none
  severity_filter : Option (List Severity) := none
  parameter_overrides : Option (List (String × String)) := none
  active : Option Bool := none

/-- `WaiverManager._parse_date` on the already-decoded ordinal model:
a present ordinal stays, an absent one means no expiration. -/
def parse_date (d : Option Nat) : Option Nat := d

/-- The `rules` list shared by the live line/pattern parsers:
`item.get('rules', [rule_name])`, appending `rule_name` when missing. -/
def rules_with_self (item : Item) (rule_name : String) : List String :=
  let rns := item.rules.getD [rule_name]
  if rule_name ∈ rns then rns else rns ++ [rule_name]

/-- The live (second) `WaiverManager._parse_line_waiver`: decodes the
`violation_line` shorthand `file:line:col: message` when present, else
the explicit keys.  `n` is `len(self.waivers)` at parse time (used for
the default id). -/
def parse_line_waiver (item : Item) (rule_name : String) (n : Nat) : WaiverRule :=
  let vline := item.violation_line.getD ""
  let parts : Option String × Option Nat × Option Nat × String :=
    if vline ≠ "" then
      match py_split_colon3 vline with
      | f :: l :: c :: m :: _ =>
        (some f,
         if isDigitStr l then l.toNat? else none,
         if isDigitStr c then c.toNat? else none,
         pyStrip m)
      | _ => (none, none, none, vline)
    else
      (item.file_pattern, item.line_number, item.column, item.pattern.getD "")
  { id := item.id.getD ("line_" ++ rule_name ++ "_" ++ toString n)
    type := WaiverType.line_specific
    pattern := parts.2.2.2
    rule_names := rules_with_self item rule_name
    file_pattern := parts.1
    line_number := parts.2.1
    column := parts.2.2.1
    reason := item.reason.getD ""
    approved_by := item.approved_by.getD ""
    created_date := parse_date item.created_date
    expires := parse_date item.expires
    issue_reference := item.issue_reference
    code_content := item.code_content
    message_pattern := item.message_pattern
    active := item.active.getD true }

/-- The live (second) `WaiverManager._parse_pattern_waiver`. -/
def parse_pattern_waiver (item : Item) (rule_name : String) (n : Nat) : WaiverRule :=
  { id := item.id.getD ("pattern_" ++ rule_name ++ "_" ++ toString n)
    type := WaiverType.pattern_based
    pattern := item.pattern.getD ""
    rule_names := rules_with_self item rule_name
    file_pattern := item.file_pattern
    reason := item.reason.getD ""
    approved_by := item.approved_by.getD ""
    created_date := parse_date item.created_date
    expires := parse_date item.expires
    issue_reference := item.issue_reference
    message_pattern := item.message_pattern
    severity_filter := item.severity_filter.getD []
    active := item.active.getD true }

/-- The live (second) `WaiverManager._parse_rule_waiver`: a truthy
`rule` key overrides `rules`, an empty list defaults to the owning rule. -/
def parse_rule_waiver (item : Item) (rule_name : String) (n : Nat) : WaiverRule :=
  let rns1 := item.rules.getD []
  let rns2 :=
    match item.rule with
    | some r => if r ≠ "" then [r] else rns1
    | none => rns1
  let rns :=
    if rns2 = [] then [rule_name]
    else if rule_name ∈ rns2 then rns2
    else rns2 ++ [rule_name]
  { id := item.id.getD ("rule_" ++ rule_name ++ "_" ++ toString n)
    type := WaiverType.rule_based
    rule_names := rns
    file_pattern := py_or_str item.scope item.file_pattern
    reason := item.reason.getD ""
    approved_by := item.approved_by.getD ""
    created_date := parse_date item.created_date
    expires := parse_date item.expires
    issue_reference := item.issue_reference
    parameter_overrides := item.parameter_overrides.getD []
    active := item.active.getD true }

/-- `WaiverManager._parse_file_waiver`: a pattern-based waiver scoped to
the owning rule whose file pattern is `pattern` or `file_pattern`; note
that the `pattern` and `message_pattern` matching fields stay unset. -/
def parse_file_waiver (item : Item) (rule_name : String) (n : Nat) : WaiverRule :=
  { id := item.id.getD ("file_" ++ rule_name ++ "_" ++ toString n)
    type := WaiverType.pattern_based
    rule_names := [rule_name]
    file_pattern := py_or_str item.pattern item.file_pattern
    reason := item.reason.getD ""
    approved_by := item.approved_by.getD ""
    created_date := parse_date item.created_date
    expires := parse_date item.expires
    issue_reference := item.issue_reference
    active := item.active.getD true }

/-- `WaiverManager._parse_bulk_waiver` (reachable only from the dead
`_load_rule_waivers` method): `rules: "*"` collapses to the owning rule
and the `pattern` key doubles as the file pattern. -/
def parse_bulk_waiver (item : Item) (rule_name : String) (n : Nat) : WaiverRule :=
  let rns :=
    if item.rules_star then [rule_name]
    else
      match item.rules with
      | none => [rule_name]
      | some rs => if rule_name ∈ rs then rs else rs ++ [rule_name]
  { id := item.id.getD ("bulk_" ++ rule_name ++ "_" ++ toString n)
    type := WaiverType.bulk
    pattern := item.pattern.getD ""
    rule_names := rns
    file_pattern := item.pattern
    reason := item.reason.getD ""
    approved_by := item.approved_by.getD ""
    created_date := parse_date item.created_date
    expires := parse_date item.expires
    issue_reference := item.issue_reference
    active := item.active.getD true }

/-- The parsed YAML mapping of one `<rule>_waivers.yml` file: the five
declaration groups the module ever mentions. -/
structure WaiverFileData where
  rule_waivers : List Item := []
  file_waivers : List Item := []
  line_waivers : List Item := []
  pattern_waivers : List Item := []
  bulk_waivers : List Item := []

/-- Parse one declaration group, threading the running waiver count used
for default ids (each parsed waiver is appended immediately in Python). -/
def load_group (parse : Item → String → Nat → WaiverRule)
    (items : List Item) (rule_name : String) (n : Nat) : List WaiverRule :=
  match items with
  | [] => []
  | it :: rest => parse it rule_name n :: load_group parse rest rule_name (n + 1)

/-- `WaiverManager._load_rule_waiver_file`, the loader actually invoked
by `load_all_rule_waivers`: it reads the `rule_waivers`, `file_waivers`,
`line_waivers` and `pattern_waivers` groups, in that order, and reads no
other group.  `n` is the waiver count before this file. -/
def load_rule_waiver_file (data : WaiverFileData) (rule_name : String)
    (n : Nat) : List WaiverRule :=
  let a := load_group parse_rule_waiver data.rule_waivers rule_name n
  let b := load_group parse_file_waiver data.file_waivers rule_name (n + a.length)
  let c := load_group parse_line_waiver data.line_waivers rule_name
    (n + a.length + b.length)
  let d := load_group parse_pattern_waiver data.pattern_waivers rule_name
    (n + a.length + b.length + c.length)
  a ++ b ++ c ++ d

/-- The fields of `base_rule.CheckResult` read by the modelled code
(timing and metric fields carry no logic and are omitted). -/
structure CheckResult where
  rule_name : String := ""
  success : Bool := true
  error_message : String := ""
  violations : List Violation := []
  warnings : List Violation := []
  waived_violations : List Violation := []
  waiver_count : Nat := 0
deriving DecidableEq

/-- A loaded rule object: its `check` either returns a result or raises
(modelled as `Except` with the exception text). -/
structure RuleInstance where
  check : Except String CheckResult

/-- A registry entry: instantiating the rule class may itself raise. -/
structure RuleSpec where
  name : String
  instantiate : Except String RuleInstance

/-- `ConsistencyChecker.run_rule` (waiver path; the optional auto-fix
branch is out of the claims' scope): instantiation and `check` run under
one try/except whose handler returns a failed `CheckResult`; on success
the violations are filtered through `apply_waivers` called with
`str(self.repo_root)` as the file path.  Returns the result and the
updated waiver state. -/
def run_rule (r : RuleSpec) (ws : List WaiverRule) (repo_root : String)
    (today now : Nat) : CheckResult × List WaiverRule :=
  match r.instantiate with
  | Except.error e =>
    ({ rule_name := r.name, success := false, error_message := e }, ws)
  | Except.ok inst =>
    match inst.check with
    | Except.error e =>
      ({ rule_name := r.name, success := false, error_message := e }, ws)
    | Except.ok result =>
      if result.violations.isEmpty then (result, ws)
      else
        let t := apply_waivers ws result.violations repo_root today now
        ({ result with
            violations := t.2.1
            waived_violations := t.2.2
            waiver_count := t.2.2.length }, t.1)

/-- `ConsistencyChecker.run_all_rules` over the (already sorted) enabled
rule list: every rule yields exactly one `CheckResult`; the shared
waiver manager state is threaded through. -/
def run_all_rules (rules : List RuleSpec) (ws : List WaiverRule)
    (repo_root : String) (today now : Nat) :
    List CheckResult × List WaiverRule :=
  match rules with
  | [] => ([], ws)
  | r :: rest =>
    let p := run_rule r ws repo_root today now
    let q := run_all_rules rest p.2 repo_root today now
    (p.1 :: q.1, q.2)

/-- `ConsistencyChecker._get_enabled_rules`: empty allow-list means all
discovered rules minus the deny-list; otherwise the allow-list minus the
deny-list, finally restricted to discovered rules. -/
def get_enabled_rules (available enabledCfg disabledCfg : List String) :
    List String :=
  let enabled :=
    if enabledCfg.isEmpty then
      available.filter fun nm => decide (nm ∉ disabledCfg)
    else
      enabledCfg.filter fun nm => decide (nm ∉ disabledCfg)
  enabled.filter fun nm => decide (nm ∈ available)

/-- Scenario A of the spec: a naming violation at a.py line 10. -/
def scenario_violation : Violation :=
  { rule_name := "naming", file_path := "a.py", line_number := 10,
    message := "Class foo should use PascalCase" }

/-- Scenario A of the spec: the line waiver for that violation. -/
def scenario_waiver : WaiverRule :=
  { id := "w1", type := WaiverType.line_specific, pattern := "PascalCase",
    rule_names := ["naming"], file_pattern := some "a.py",
    line_number := some 10 }

/-- A registry entry whose check reports exactly the scenario violation. -/
def scenario_rule : RuleSpec :=
  { name := "naming",
    instantiate := Except.ok
      { check := Except.ok
          { rule_name := "naming", violations := [scenario_violation] } } }

/-- An otherwise-matching waiver that expired on day 5. -/
def expired_waiver : WaiverRule :=
  { id := "expired", type := WaiverType.pattern_based, pattern := "x",
    expires := some 5 }

/-- A line-specific waiver declaring only a file pattern. -/
def file_only_line_waiver : WaiverRule :=
  { id := "fw", type := WaiverType.line_specific,
    file_pattern := some "pkg/a.py" }

/-- A pattern-based waiver with a file pattern but no message criteria,
exactly the shape `_parse_file_waiver` produces. -/
def file_only_pattern_waiver : WaiverRule :=
  { id := "filewide", type := WaiverType.pattern_based,
    file_pattern := some "a.py" }

/-- A registry entry whose instantiation raises. -/
def bad_rule : RuleSpec :=
  { name := "broken", instantiate := Except.error "boom" }

/-- A registry entry that instantiates and checks cleanly. -/
def good_rule : RuleSpec :=
  { name := "ok",
    instantiate := Except.ok { check := Except.ok { rule_name := "ok" } } }

example : fnmatch "a.py" "a.py" = true := by decide
example : fnmatch "/repo" "a.py" = false := by decide
example : fnmatch "generated/x.py" "generated/*.py" = true := by decide
example : fnmatch "src/x.txt" "generated/*.py" = false := by decide
example : py_in "PascalCase" "Class foo should use PascalCase" = true := by decide
example : py_in "zzz" "Class foo" = false := by decide
example : re_search "Pascal.ase" "use PascalCase now" = true := by decide
example : re_search "^x+$" "xxx" = true := by decide
example : re_search "^x+$" "xxy" = false := by decide
example : re_search "[a-c]z" "obz" = true := by decide

/-- Helper: the two output lists of `apply_waivers` have lengths summing
to the input length. -/
theorem apply_waivers_length_add (ws : List WaiverRule) (vs : List Violation)
    (fp : String) (today now : Nat) :
    (apply_waivers ws vs fp today now).2.1.length
      + (apply_waivers ws vs fp today now).2.2.length = vs.length := by
  induction vs generalizing ws with
  | nil => simp [apply_waivers]
  | cons v rest ih =>
    have h := ih (apply_waivers_inner ws v fp today now).1
    simp only [apply_waivers]
    cases hp : (apply_waivers_inner ws v fp today now).2 <;> simp [hp] <;> omega

/-- Helper: `apply_waivers` preserves the multiplicity of every
violation across the two output lists. -/
theorem apply_waivers_countP (ws : List WaiverRule) (vs : List Violation)
    (fp : String) (today now : Nat) (p : Violation → Bool) :
    (apply_waivers ws vs fp today now).2.1.countP p
      + (apply_waivers ws vs fp today now).2.2.countP p = vs.countP p := by
  induction vs generalizing ws with
  | nil => simp [apply_waivers]
  | cons v rest ih =>
    have h := ih (apply_waivers_inner ws v fp today now).1
    simp only [apply_waivers]
    cases hp : (apply_waivers_inner ws v fp today now).2 <;>
      simp [hp, List.countP_cons] <;> omega

/-- C1: for every violation list and waiver state, `apply_waivers`
returns a partition of the input: the lengths of remaining and waived sum
to the input length, and every violation value keeps its multiplicity
across the two output lists (so it lands in exactly one side, never
both). -/
theorem c1_apply_waivers_partition (ws : List WaiverRule) (vs : List Violation)
    (fp : String) (today now : Nat) :
    ((apply_waivers ws vs fp today now).2.1.length
       + (apply_waivers ws vs fp today now).2.2.length = vs.length)
    ∧ ∀ x : Violation,
        ((apply_waivers ws vs fp today now).2.1.countP fun y => decide (y = x))
          + ((apply_waivers ws vs fp today now).2.2.countP fun y => decide (y = x))
          = vs.countP fun y => decide (y = x) :=
  ⟨apply_waivers_length_add ws vs fp today now,
   fun x => apply_waivers_countP ws vs fp today now fun y => decide (y = x)⟩

/-- C10: `apply_waivers` preserves input order — both the remaining list
and the waived list are subsequences of the input violation list. -/
theorem c10_apply_waivers_preserves_order (ws : List WaiverRule)
    (vs : List Violation) (fp : String) (today now : Nat) :
    (apply_waivers ws vs fp today now).2.1.Sublist vs
    ∧ (apply_waivers ws vs fp today now).2.2.Sublist vs := by
  induction vs generalizing ws with
  | nil => simp [apply_waivers]
  | cons v rest ih =>
    have h := ih (apply_waivers_inner ws v fp today now).1
    simp only [apply_waivers]
    split
    · exact ⟨List.Sublist.cons _ h.1, List.Sublist.cons₂ _ h.2⟩
    · exact ⟨List.Sublist.cons₂ _ h.1, List.Sublist.cons _ h.2⟩

/-- C2: within `apply_waivers`, one violation is tried against the
waiver list in order.  If every waiver before `w` rejects and `w`
matches, the output state is the input list with exactly `w` replaced by
its usage-recorded copy (`usage_count + 1`, `last_used := now`) — later
waivers, including ones that would also match, are untouched.  If no
waiver matches, the state is returned unchanged.  The third conjunct
ties the per-violation pass to `apply_waivers` itself. -/
theorem c2_first_match_wins :
    (∀ (pre : List WaiverRule) (w : WaiverRule) (post : List WaiverRule)
        (v : Violation) (fp : String) (today now : Nat),
        (∀ w2 ∈ pre, w2.matches_violation v fp today = false) →
        w.matches_violation v fp today = true →
        apply_waivers_inner (pre ++ w :: post) v fp today now =
          (pre ++ { w with usage_count := w.usage_count + 1,
                           last_used := some now } :: post, true))
    ∧ (∀ (ws : List WaiverRule) (v : Violation) (fp : String) (today now : Nat),
        (∀ w2 ∈ ws, w2.matches_violation v fp today = false) →
        apply_waivers_inner ws v fp today now = (ws, false))
    ∧ (∀ (ws : List WaiverRule) (v : Violation) (fp : String) (today now : Nat),
        apply_waivers ws [v] fp today now =
          ((apply_waivers_inner ws v fp today now).1,
           if (apply_waivers_inner ws v fp today now).2 then ([], [v])
           else ([v], []))) := by
  refine ⟨?_, ?_, ?_⟩
  · intro pre
    induction pre with
    | nil =>
      intro w post v fp today now hpre hw
      simp [apply_waivers_inner, hw, WaiverRule.record_usage]
    | cons a pre2 ih =>
      intro w post v fp today now hpre hw
      have ha := hpre a (by simp)
      have hrec := ih w post v fp today now
        (fun w2 h2 => hpre w2 (by simp [h2])) hw
      simp [apply_waivers_inner, ha, hrec]
  · intro ws
    induction ws with
    | nil =>
      intro v fp today now hws
      simp [apply_waivers_inner]
    | cons a rest ih =>
      intro v fp today now hws
      have ha := hws a (by simp)
      have hrec := ih v fp today now fun w2 h2 => hws w2 (by simp [h2])
      simp [apply_waivers_inner, ha, hrec]
  · intro ws v fp today now
    simp only [apply_waivers]
    split
    · rfl
    · rfl

/-- C2 witness: two pattern waivers both match the violation, yet only
the first one's usage count is bumped and stamped. -/
theorem c2_witness :
    apply_waivers_inner
        [{ id := "first", type := WaiverType.pattern_based, pattern := "x" },
         { id := "second", type := WaiverType.pattern_based, pattern := "x" }]
        { message := "x" } "f" 0 5 =
      ([{ id := "first", type := WaiverType.pattern_based, pattern := "x",
          usage_count := 1, last_used := some 5 },
        { id := "second", type := WaiverType.pattern_based, pattern := "x" }],
       true) := by
  simpa using c2_first_match_wins.1 []
    { id := "first", type := WaiverType.pattern_based, pattern := "x" }
    [{ id := "second", type := WaiverType.pattern_based, pattern := "x" }]
    { message := "x" } "f" 0 5 (by simp) (by decide)

/-- C3: a waiver that is inactive, or whose expiry date is strictly
before today, matches no violation whatever its other criteria. -/
theorem c3_inactive_or_expired_never_matches (w : WaiverRule) (v : Violation)
    (fp : String) (today : Nat)
    (h : w.active = false ∨ ∃ e, w.expires = some e ∧ e < today) :
    w.matches_violation v fp today = false := by
  have hg : (!w.active || w.is_expired today) = true := by
    rcases h with h | ⟨e, he, hlt⟩
    · simp [h]
    · simp [WaiverRule.is_expired, he, hlt]
  simp [WaiverRule.matches_violation, hg]

/-- C3 witness: the expired waiver would match the violation on day 5
but matches nothing on day 9; an inactive copy matches nothing either. -/
theorem c3_witness :
    expired_waiver.matches_violation { message := "x" } "a.py" 9 = false
    ∧ ({ expired_waiver with expires := none, active := false } :
        WaiverRule).matches_violation { message := "x" } "a.py" 9 = false :=
  ⟨c3_inactive_or_expired_never_matches expired_waiver { message := "x" }
      "a.py" 9 (Or.inr ⟨5, rfl, by decide⟩),
   c3_inactive_or_expired_never_matches _ { message := "x" } "a.py" 9
      (Or.inl rfl)⟩

example : expired_waiver.matches_violation { message := "x" } "a.py" 5 = true := by
  decide

/-- C5 (divergence): the Scenario A waiver does match its violation when
checked against the file the violation was found in ("a.py"), but
`run_rule` hands `apply_waivers` the repository root instead, so the
violation stays in `violations`, nothing is waived and the waiver's
usage count remains 0. -/
theorem c5_run_rule_matches_repo_root_not_violation_file :
    scenario_waiver.matches_violation scenario_violation "a.py" 0 = true
    ∧ scenario_waiver.matches_violation scenario_violation
        scenario_violation.file_path 0 = true
    ∧ scenario_waiver.matches_violation scenario_violation "/repo" 0 = false
    ∧ (run_rule scenario_rule [scenario_waiver] "/repo" 0 0).1.violations
        = [scenario_violation]
    ∧ (run_rule scenario_rule [scenario_waiver] "/repo" 0 0).1.waived_violations
        = []
    ∧ ((run_rule scenario_rule [scenario_waiver] "/repo" 0 0).2.map
        fun w => w.usage_count) = [0] := by
  decide

/-- C6 (divergence): the loader actually called by
`load_all_rule_waivers` parses the `rule_waivers`, `file_waivers`,
`line_waivers` and `pattern_waivers` groups and appends their entries in
that order, but an entry placed in the `bulk_waivers` group contributes
nothing — the group is never read on the live path. -/
theorem c6_loader_skips_bulk_waivers (i1 i2 i3 i4 i5 : Item) (r : String)
    (n : Nat) :
    load_rule_waiver_file
        { rule_waivers := [i1], file_waivers := [i2], line_waivers := [i3],
          pattern_waivers := [i4], bulk_waivers := [i5] } r n =
      [parse_rule_waiver i1 r n, parse_file_waiver i2 r (n + 1),
       parse_line_waiver i3 r (n + 1 + 1),
       parse_pattern_waiver i4 r (n + 1 + 1 + 1)]
    ∧ ∀ it : Item,
        load_rule_waiver_file { bulk_waivers := [it] } r n = [] :=
  ⟨rfl, fun _ => rfl⟩

/-- C7: an exception raised while instantiating a rule or running its
check is caught inside `run_rule` and surfaced as a failed `CheckResult`
carrying the exception text, and `run_all_rules` always produces one
result per rule, so a raising rule cannot suppress the others. -/
theorem c7_rule_exceptions_are_contained :
    (∀ (r : RuleSpec) (ws : List WaiverRule) (rr : String) (today now : Nat)
        (e : String),
        (r.instantiate = Except.error e ∨
          ∃ inst, r.instantiate = Except.ok inst ∧ inst.check = Except.error e) →
        (run_rule r ws rr today now).1.success = false ∧
        (run_rule r ws rr today now).1.error_message = e)
    ∧ ∀ (rules : List RuleSpec) (ws : List WaiverRule) (rr : String)
        (today now : Nat),
        (run_all_rules rules ws rr today now).1.length = rules.length := by
  constructor
  · intro r ws rr today now e h
    rcases h with h | ⟨inst, hi, hc⟩
    · simp [run_rule, h]
    · simp [run_rule, hi, hc]
  · intro rules
    induction rules with
    | nil => intro ws rr today now; simp [run_all_rules]
    | cons r rest ih =>
      intro ws rr today now
      simp [run_all_rules, ih]

/-- C7 witness: a rule whose instantiation raises yields a failed result
with the exception text, and a run over the broken rule plus a healthy
rule still yields two results. -/
theorem c7_witness :
    ((run_rule bad_rule [] "/repo" 0 0).1.success = false
      ∧ (run_rule bad_rule [] "/repo" 0 0).1.error_message = "boom")
    ∧ (run_all_rules [bad_rule, good_rule] [] "/repo" 0 0).1.length = 2 :=
  ⟨c7_rule_exceptions_are_contained.1 bad_rule [] "/repo" 0 0 "boom"
      (Or.inl rfl),
   c7_rule_exceptions_are_contained.2 [bad_rule, good_rule] [] "/repo" 0 0⟩

/-- C8: membership in the enabled-rule list — with an empty allow-list
it is exactly the discovered rules outside the deny-list; with a
non-empty allow-list it is the allow-list minus the deny-list restricted
to discovered rules; and a denied rule is never enabled. -/
theorem c8_enabled_rule_selection (available enabledCfg disabledCfg : List String)
    (nm : String) :
    (nm ∈ get_enabled_rules available enabledCfg disabledCfg ↔
      ((if enabledCfg = [] then nm ∈ available else nm ∈ enabledCfg)
        ∧ nm ∉ disabledCfg ∧ nm ∈ available))
    ∧ (nm ∈ disabledCfg → nm ∉ get_enabled_rules available enabledCfg disabledCfg) := by
  have key : nm ∈ get_enabled_rules available enabledCfg disabledCfg ↔
      ((if enabledCfg = [] then nm ∈ available else nm ∈ enabledCfg)
        ∧ nm ∉ disabledCfg ∧ nm ∈ available) := by
    unfold get_enabled_rules
    rcases eq_or_ne enabledCfg [] with he | he
    · subst he
      simp [List.mem_filter]
      tauto
    · simp [List.mem_filter, he, List.isEmpty_iff]
      tauto
  exact ⟨key, fun hd hmem => (key.mp hmem).2.1 hd⟩

/-- C8 witness: a rule on both the allow-list and the deny-list stays
disabled. -/
theorem c8_witness :
    "r1" ∉ get_enabled_rules ["r1", "r2"] ["r1"] ["r1"] :=
  (c8_enabled_rule_selection ["r1", "r2"] ["r1"] ["r1"] "r1").2 (by decide)

/-- C9: a pattern-based or temporary waiver with an empty `pattern` and
no `message_pattern` matches nothing — even when active, unexpired and
with a file pattern matching the file — and every waiver produced by
`_parse_file_waiver` has exactly that shape, so it can never match. -/
theorem c9_file_waivers_cannot_match :
    (∀ (w : WaiverRule) (v : Violation) (fp : String) (today : Nat),
        (w.type = WaiverType.pattern_based ∨ w.type = WaiverType.temporary) →
        w.pattern = "" → w.message_pattern = none →
        w.matches_violation v fp today = false)
    ∧ ∀ (item : Item) (rule_name : String) (n : Nat) (v : Violation)
        (fp : String) (today : Nat),
        (parse_file_waiver item rule_name n).matches_violation v fp today
          = false := by
  have base : ∀ (w : WaiverRule) (v : Violation) (fp : String) (today : Nat),
      (w.type = WaiverType.pattern_based ∨ w.type = WaiverType.temporary) →
      w.pattern = "" → w.message_pattern = none →
      w.matches_violation v fp today = false := by
    intro w v fp today hty hp hm
    have hpb : w.matches_pattern_based v fp = false := by
      simp [WaiverRule.matches_pattern_based, hp, hm, strTruthy]
    have htmp : w.matches_temporary v fp = false := by
      simp [WaiverRule.matches_temporary, hpb]
    rcases hty with hty | hty <;>
      simp [WaiverRule.matches_violation, hty, hpb, htmp]
  refine ⟨base, ?_⟩
  intro item rule_name n v fp today
  exact base _ v fp today (Or.inl rfl) rfl rfl

/-- C9 witness: a file-wide pattern waiver whose file pattern does match
the file still waives nothing. -/
theorem c9_witness :
    file_only_pattern_waiver.matches_violation
        { rule_name := "naming", message := "anything" } "a.py" 0 = false :=
  c9_file_waivers_cannot_match.1 file_only_pattern_waiver
    { rule_name := "naming", message := "anything" } "a.py" 0
    (Or.inl rfl) rfl rfl

/-- Helper: the early-return guard chain of the line-specific matcher is
the conjunction of the positive forms of its guards. -/
theorem guard_chain_eq (g1 b1 dl dc g2 b2 mp rs pe pi : Bool) :
    (if g1 && !b1 then false
     else if !dl then false
     else if !dc then false
     else if g2 && !b2 then false
     else if mp then (if !rs then false else true)
     else if !pe && !pi then false
     else true) =
    ((if g1 then b1 else true) && dl && dc && (if g2 then b2 else true)
      && (if mp then rs else if !pe then pi else true)) := by
  cases g1 <;> cases b1 <;> cases dl <;> cases dc <;> cases g2 <;> cases b2 <;>
    cases mp <;> cases rs <;> cases pe <;> cases pi <;> rfl

/-- C4: for an active, unexpired line-specific waiver passing the
rule-name and severity filters, `matches_violation` is exactly the
conjunction of the declared sub-criteria (file glob, line equality,
column equality, stripped code equality, regex else substring message
check), absent criteria holding vacuously; in particular such a waiver
declaring only a matching file pattern matches the violation. -/
theorem c4_line_specific_conjunction (w : WaiverRule) (v : Violation)
    (fp : String) (today : Nat)
    (hty : w.type = WaiverType.line_specific)
    (hact : w.active = true)
    (hexp : w.is_expired today = false)
    (hrule : w.rule_names = [] ∨ v.rule_name ∈ w.rule_names)
    (hsev : w.severity_filter = [] ∨ v.severity ∈ w.severity_filter) :
    (w.matches_violation v fp today =
      ((if strTruthy w.file_pattern then fnmatch fp (w.file_pattern.getD "")
        else true)
        && (match w.line_number with
            | some ln => decide (v.line_number = ln)
            | none => true)
        && (match w.column with
            | some c => decide (v.column = c)
            | none => true)
        && (if strTruthy w.code_content then
              decide (pyStrip (w.code_content.getD "") = pyStrip v.code_snippet)
            else true)
        && (if strTruthy w.message_pattern then
              re_search (w.message_pattern.getD "") v.message
            else if decide (w.pattern ≠ "") then py_in w.pattern v.message
            else true)))
    ∧ (w.line_number = none → w.column = none → w.code_content = none →
        w.message_pattern = none → w.pattern = "" →
        strTruthy w.file_pattern = true →
        fnmatch fp (w.file_pattern.getD "") = true →
        w.matches_violation v fp today = true) := by
  have hgate : w.matches_violation v fp today = w.matches_line_specific v fp := by
    have h1 : (!w.active || w.is_expired today) = false := by
      simp [hact, hexp]
    have h2 : (decide (w.rule_names = [])
        || decide (v.rule_name ∈ w.rule_names)) = true := by
      rcases hrule with h | h <;> simp [h]
    have h3 : (decide (w.severity_filter = [])
        || decide (v.severity ∈ w.severity_filter)) = true := by
      rcases hsev with h | h <;> simp [h]
    simp [WaiverRule.matches_violation, h1, h2, h3, hty]
  have hconj : w.matches_line_specific v fp =
      ((if strTruthy w.file_pattern then fnmatch fp (w.file_pattern.getD "")
        else true)
        && (match w.line_number with
            | some ln => decide (v.line_number = ln)
            | none => true)
        && (match w.column with
            | some c => decide (v.column = c)
            | none => true)
        && (if strTruthy w.code_content then
              decide (pyStrip (w.code_content.getD "") = pyStrip v.code_snippet)
            else true)
        && (if strTruthy w.message_pattern then
              re_search (w.message_pattern.getD "") v.message
            else if decide (w.pattern ≠ "") then py_in w.pattern v.message
            else true)) := by
    unfold WaiverRule.matches_line_specific
    cases hln : w.line_number with
    | none =>
      cases hcol : w.column with
      | none =>
        simp only [ne_eq, decide_not]
        exact guard_chain_eq (strTruthy w.file_pattern)
          (fnmatch fp (w.file_pattern.getD "")) true true
          (strTruthy w.code_content)
          (decide (pyStrip (w.code_content.getD "") = pyStrip v.code_snippet))
          (strTruthy w.message_pattern)
          (re_search (w.message_pattern.getD "") v.message)
          (decide (w.pattern = "")) (py_in w.pattern v.message)
      | some c =>
        simp only [ne_eq, decide_not]
        exact guard_chain_eq (strTruthy w.file_pattern)
          (fnmatch fp (w.file_pattern.getD "")) true (decide (v.column = c))
          (strTruthy w.code_content)
          (decide (pyStrip (w.code_content.getD "") = pyStrip v.code_snippet))
          (strTruthy w.message_pattern)
          (re_search (w.message_pattern.getD "") v.message)
          (decide (w.pattern = "")) (py_in w.pattern v.message)
    | some ln =>
      cases hcol : w.column with
      | none =>
        simp only [ne_eq, decide_not]
        exact guard_chain_eq (strTruthy w.file_pattern)
          (fnmatch fp (w.file_pattern.getD ""))
          (decide (v.line_number = ln)) true
          (strTruthy w.code_content)
          (decide (pyStrip (w.code_content.getD "") = pyStrip v.code_snippet))
          (strTruthy w.message_pattern)
          (re_search (w.message_pattern.getD "") v.message)
          (decide (w.pattern = "")) (py_in w.pattern v.message)
      | some c =>
        simp only [ne_eq, decide_not]
        exact guard_chain_eq (strTruthy w.file_pattern)
          (fnmatch fp (w.file_pattern.getD ""))
          (decide (v.line_number = ln)) (decide (v.column = c))
          (strTruthy w.code_content)
          (decide (pyStrip (w.code_content.getD "") = pyStrip v.code_snippet))
          (strTruthy w.message_pattern)
          (re_search (w.message_pattern.getD "") v.message)
          (decide (w.pattern = "")) (py_in w.pattern v.message)
  refine ⟨hgate.trans hconj, ?_⟩
  intro h1 h2 h3 h4 h5 h6 h7
  rw [hgate, hconj]
  simp [h1, h2, h3, h4, h5, h6, h7, strTruthy]

/-- C4 witness: a line-specific waiver with only a file pattern acts as
a file-wide suppression on a matching file. -/
theorem c4_witness :
    file_only_line_waiver.matches_violation
        { rule_name := "naming", message := "m" } "pkg/a.py" 3 = true := by
  have h := c4_line_specific_conjunction file_only_line_waiver
    { rule_name := "naming", message := "m" } "pkg/a.py" 3 rfl rfl rfl
    (Or.inl rfl) (Or.inl rfl)
  exact h.2 rfl rfl rfl rfl rfl (by decide) (by decide)
